import Mathlib

/-
Verification of the Pigweed building-block libraries against their
specification. The development shallowly embeds the relevant modules:
the canonical Status enumeration, the Result value type and its
try-assign propagation idiom, the protocol-buffer streaming encoder's
nested-message size limit, the RPC log queue's Pop operation, the mock
I2C bus initiator, and the assertion-failure handler. Components whose
implementation is not among the examined sources (only their tests,
declarations or callers are) are modelled from the specification, as
flagged in their doc comments.
-/

set_option autoImplicit false

namespace Pw

/-- The canonical `pw::Status` enumeration (spec §3): a closed set of
outcome codes, an immutable equality-comparable value type. -/
inductive Status where
  | Ok
  | Cancelled
  | InvalidArgument
  | DeadlineExceeded
  | NotFound
  | AlreadyExists
  | PermissionDenied
  | ResourceExhausted
  | FailedPrecondition
  | Aborted
  | OutOfRange
  | Unimplemented
  | Internal
  | Unavailable
  | DataLoss
  | Unauthenticated
  deriving DecidableEq, Repr

/-- Modelled from the spec: `pw::Result<T>` (spec §3, §4.1; its
implementation `pw_result/result.h` is not among the examined sources,
only its unit tests are). A Result owns either a value of type `T` or a
Status; the constructors used by client code are `ofValue` and
`ofStatus`, and constructing from an Ok status is a usage error that
the spec disallows, so every claim about the error side carries a
non-Ok hypothesis. -/
inductive Result (T : Type) where
  | val (v : T)
  | err (s : Status)
  deriving DecidableEq, Repr

/-- Construction of a `Result<T>` from a value (the success path). -/
def Result.ofValue {T : Type} (v : T) : Result T := Result.val v

/-- Construction of a `Result<T>` from a Status (the failure path;
passing `Status.Ok` here is the usage error the spec reserves for the
value-bearing constructor). -/
def Result.ofStatus {T : Type} (s : Status) : Result T := Result.err s

/-- Accessor `Result<T>::ok()`: reports whether the Result carries a value. -/
def Result.ok {T : Type} : Result T → Bool
  | Result.val _ => true
  | Result.err _ => false

/-- Accessor `Result<T>::status()`: `Ok` on the value-bearing path, the stored
Status otherwise. -/
def Result.status {T : Type} : Result T → Status
  | Result.val _ => Status.Ok
  | Result.err s => s

/-- Accessor `Result<T>::value()`, modelled totally: `some` of the contained
value when successful, `none` otherwise (the source leaves the failure
case undefined/reported). -/
def Result.value? {T : Type} : Result T → Option T
  | Result.val v => some v
  | Result.err _ => none

/-- Accessor `Result<T>::value_or(default)`: the contained value when
successful, else the caller-supplied default. -/
def Result.value_or {T : Type} (r : Result T) (default : T) : T :=
  match r with
  | Result.val v => v
  | Result.err _ => default

/-- Modelled from the spec: the `PW_TRY_ASSIGN` propagation idiom
(spec §4.1; `pw_status/try.h` is not among the examined sources, only
its use in the Result unit tests is). It evaluates a Result-returning
expression; on failure the enclosing operation returns that Result's
Status immediately, otherwise the contained value is bound and the
rest of the enclosing operation — the continuation `k` — runs. -/
def tryAssign {T : Type} (r : Result T) (k : T → Status) : Status :=
  match r with
  | Result.val v => k v
  | Result.err s => s

/-- Function `ReturnResult` from the Result unit tests: the identity on
`Result<bool>`, used so that `PW_TRY_ASSIGN` is exercised on a
function-call expression. -/
def ReturnResult (result : Result Bool) : Result Bool := result

/-- Function `TryResultAssign` from the Result unit tests: applies the
try-assign idiom to `ReturnResult(result)` and, when execution
continues past it, returns `result.status()` (the test's intervening
assertions all hold on that path and do not affect the returned
Status). -/
def TryResultAssign (result : Result Bool) : Status :=
  tryAssign (ReturnResult result) fun _ => result.status

/-- Bounded varint encoder: little-endian base-128 with the high bit of
each byte signalling continuation (spec §6 and glossary). The fuel
argument bounds the recursion; ten bytes cover any 64-bit value. -/
def varintEncodeAux : Nat → Nat → List Nat
  | 0, _ => []
  | fuel + 1, n => if n < 128 then [n] else (n % 128 + 128) :: varintEncodeAux fuel (n / 128)

/-- Varint encoding of a natural number (spec §6: standard
tag(varint)/length(varint)/value wire format). -/
def varintEncode (n : Nat) : List Nat :=
  varintEncodeAux 10 n

/-- A protocol-buffer key: the varint of field number shifted left by
three bits, or-ed with the wire type (spec §3, "a tag (field number +
wire type)"). -/
def encodeKey (fieldNumber wireType : Nat) : List Nat :=
  varintEncode (fieldNumber * 8 + wireType)

/-- Constant `config::kMaxVarintSize`: the fixed width, in bytes, reserved for a
nested message's length varint; 1 in the default configuration
(`TEST(Encoder, SizeTypeIsConfigured)` asserts it equals
`sizeof(uint8_t)`). -/
def kMaxVarintSize : Nat := 1

/-- The largest nested-message payload whose length varint fits in
`kMaxVarintSize` bytes: `2 ^ (7 * kMaxVarintSize) - 1 = 127`
(spec §4.3: the value that fits in one varint byte). -/
def maxNestedPayload : Nat := 2 ^ (7 * kMaxVarintSize) - 1

/-- Modelled from the spec: `pw::protobuf::MemoryEncoder` (spec §3,
§4.3; `pw_protobuf/streaming_encoder.h` and its implementation are not
among the examined sources, only `varint_size_test.cc` is). The root
of an encode session: it owns a destination buffer of `bufferSize`
bytes, the bytes committed so far, and a sticky status. -/
structure MemoryEncoder where
  bufferSize : Nat
  written : List Nat
  status : Status
  deriving DecidableEq, Repr

/-- Modelled from the spec: `pw::protobuf::StreamingEncoder`, the
cursor for one open nested message (spec §3, §4.3). It carries the
sticky status inherited from its parent, the nested contents written
so far, and the parent-buffer space available for those contents. -/
structure StreamingEncoder where
  status : Status
  payload : List Nat
  capacity : Nat
  deriving DecidableEq, Repr

/-- A fresh `MemoryEncoder` over an empty destination buffer of the
given size. -/
def MemoryEncoder.init (bufferSize : Nat) : MemoryEncoder :=
  { bufferSize := bufferSize, written := [], status := Status.Ok }

/-- Modelled from the spec: `MemoryEncoder::GetNestedEncoder(field)`
opens the single nested encoder, whose contents may use the parent
buffer space left after the nested key and the reserved
`kMaxVarintSize`-byte length varint (spec §4.3). -/
def MemoryEncoder.GetNestedEncoder (e : MemoryEncoder) (fieldNumber : Nat) : StreamingEncoder :=
  { status := e.status
    payload := []
    capacity := e.bufferSize - e.written.length - (encodeKey fieldNumber 2).length - kMaxVarintSize }

/-- Modelled from the spec: `StreamingEncoder::WriteBytes(field, value)`
appends key + length varint + value to the nested contents. A failed
encoder stays failed: the write is a no-op returning the stored status
(spec §4.3, §7 sticky-failure rule). A write that would push the
cumulative nested contents past `maxNestedPayload` bytes, or past the
available buffer space, fails with ResourceExhausted and marks the
encoder failed for the rest of its life. -/
def StreamingEncoder.WriteBytes (e : StreamingEncoder) (fieldNumber : Nat) (value : List Nat) :
    Status × StreamingEncoder :=
  if e.status ≠ Status.Ok then (e.status, e)
  else
    let chunk := encodeKey fieldNumber 2 ++ varintEncode value.length ++ value
    if maxNestedPayload < e.payload.length + chunk.length ∨
        e.capacity < e.payload.length + chunk.length then
      (Status.ResourceExhausted, { e with status := Status.ResourceExhausted })
    else
      (Status.Ok, { e with payload := e.payload ++ chunk })

/-- Modelled from the spec: `StreamingEncoder::WriteUint32(field, value)`
appends key + varint of the (32-bit) value, under the same sticky-failure
and size rules as `WriteBytes` (spec §4.3). -/
def StreamingEncoder.WriteUint32 (e : StreamingEncoder) (fieldNumber : Nat) (value : Nat) :
    Status × StreamingEncoder :=
  if e.status ≠ Status.Ok then (e.status, e)
  else
    let chunk := encodeKey fieldNumber 0 ++ varintEncode (value % 2 ^ 32)
    if maxNestedPayload < e.payload.length + chunk.length ∨
        e.capacity < e.payload.length + chunk.length then
      (Status.ResourceExhausted, { e with status := Status.ResourceExhausted })
    else
      (Status.Ok, { e with payload := e.payload ++ chunk })

/-- Modelled from the spec: `StreamingEncoder::Finalize()` commits the
nested message into the parent: its key, its contents' length as the
length varint, and the contents (spec §4.3; the source writes bytes
into the parent buffer incrementally and patches the reserved length
byte here, with the same committed bytes and statuses at this point).
A failed nested encoder propagates its status to the parent; a failed
parent stays failed. -/
def StreamingEncoder.Finalize (e : StreamingEncoder) (parent : MemoryEncoder)
    (fieldNumber : Nat) : MemoryEncoder :=
  if e.status ≠ Status.Ok then { parent with status := e.status }
  else if parent.status ≠ Status.Ok then parent
  else
    let full := encodeKey fieldNumber 2 ++ varintEncode e.payload.length ++ e.payload
    if parent.bufferSize < parent.written.length + full.length then
      { parent with status := Status.ResourceExhausted }
    else
      { parent with written := parent.written ++ full }

/-- Modelled from the spec: the queue state of `pw::log_rpc::LogQueue`
(spec §3, §4.5; only the header `log_queue.h` with its doc comments is
among the examined sources). The backing ring buffer is abstracted to
its observable contents: the serialized entries in arrival order,
oldest first. -/
structure LogQueue where
  entries : List (List Nat)
  deriving DecidableEq, Repr

/-- Modelled from the spec: `LogQueue::Pop(entry_buffer)` over a
destination buffer of `bufCap` bytes (spec §4.5 and the header's doc
comment). Empty queue: OutOfRange, nothing written, queue unchanged.
Otherwise the oldest entry is removed from the queue; if it fits, Ok
with its bytes; if the destination is smaller, ResourceExhausted with
the destination filled to capacity by the entry's leading bytes and
the remainder discarded — the entry is still fully consumed. The
result is (status, bytes written to the destination, new queue). -/
def LogQueue.Pop (q : LogQueue) (bufCap : Nat) : Status × List Nat × LogQueue :=
  match q.entries with
  | [] => (Status.OutOfRange, [], q)
  | e :: rest =>
    if e.length ≤ bufCap then (Status.Ok, e, { entries := rest })
    else (Status.ResourceExhausted, e.take bufCap, { entries := rest })

/-- One expected transaction of the mock I2C initiator
(`pw_i2c/initiator_mock.h`, spec §3): target address (compared through
its ten-bit representation), expected outbound bytes, the inbound
payload to return, an optional minimum duration, and the Status to
return. -/
structure Transaction where
  address : Nat
  write_buffer : List Nat
  read_buffer : List Nat
  for_at_least : Option Nat
  return_value : Status
  deriving DecidableEq, Repr

/-- The kinds of non-fatal test-expectation failures
(`EXPECT_EQ` / `EXPECT_TRUE`) that `MockInitiator::DoWriteReadFor` can
record. -/
inductive ExpectFailure where
  | addressMismatch
  | durationMismatch
  | txMismatch
  | rxSizeMismatch
  deriving DecidableEq, Repr

/-- State of `pw::i2c::MockInitiator`: the ordered expected transactions and
the cursor `expected_transaction_index_`. -/
structure MockInitiator where
  expected_transactions : List Transaction
  expected_transaction_index : Nat
  deriving DecidableEq, Repr

/-- The observable outcome of one `DoWriteReadFor` call that passed the
fatal `PW_CHECK`: the recorded expectation failures, the bytes copied
into the caller's inbound buffer, and the returned Status. -/
structure WriteReadOutcome where
  failures : List ExpectFailure
  rx : List Nat
  returned : Status
  deriving DecidableEq, Repr

/-- Operation `MockInitiator::DoWriteReadFor` (initiator_mock.cc); `none` models
the fatal `PW_CHECK_INT_LT(expected_transaction_index_,
expected_transactions_.size())` halting the process. Otherwise, against
the expected transaction at the cursor: the addresses' ten-bit values
are compared, the duration is compared exactly when the expectation
specifies one, the outbound bytes are compared with `std::equal` over
both full ranges, and the inbound sizes are compared — each mismatch
recorded as a non-fatal test failure; then the expected inbound payload
is copied out, the cursor advances by one, and the transaction's
recorded Status is returned. -/
def MockInitiator.DoWriteReadFor (m : MockInitiator) (device_address : Nat)
    (tx_buffer : List Nat) (rx_buffer_size : Nat) (for_at_least : Nat) :
    Option (WriteReadOutcome × MockInitiator) :=
  if h : m.expected_transaction_index < m.expected_transactions.length then
    let t := m.expected_transactions.get ⟨m.expected_transaction_index, h⟩
    let f1 : List ExpectFailure :=
      if t.address = device_address then [] else [ExpectFailure.addressMismatch]
    let f2 : List ExpectFailure :=
      match t.for_at_least with
      | some d => if d = for_at_least then [] else [ExpectFailure.durationMismatch]
      | none => []
    let f3 : List ExpectFailure :=
      if t.write_buffer = tx_buffer then [] else [ExpectFailure.txMismatch]
    let f4 : List ExpectFailure :=
      if t.read_buffer.length = rx_buffer_size then [] else [ExpectFailure.rxSizeMismatch]
    some ({ failures := f1 ++ f2 ++ f3 ++ f4, rx := t.read_buffer, returned := t.return_value },
      { m with expected_transaction_index := m.expected_transaction_index + 1 })
  else
    none

/-- Modelled from the spec: `MockInitiator::Finalize()` (declared in
`initiator_mock.h`, which is not among the examined sources) reports
whether every expected transaction was consumed, Ok exactly when the
cursor has reached the end of the list (spec §4.6: an unconsumed
expectation is surfaced at destruction time). -/
def MockInitiator.Finalize (m : MockInitiator) : Status :=
  if m.expected_transaction_index = m.expected_transactions.length then Status.Ok
  else Status.OutOfRange

/-- Destructor `MockInitiator::~MockInitiator()` runs
`EXPECT_EQ(Finalize(), OkStatus())`: the destructor reports a test
failure exactly when `Finalize()` is not Ok. -/
def MockInitiator.destructorReportsFailure (m : MockInitiator) : Bool :=
  if m.Finalize = Status.Ok then false else true

/-- The log severities of the `PW_LOG` facility; the assertion handler
uses only the critical one. -/
inductive LogLevel where
  | Debug
  | Info
  | Warn
  | Error
  | Critical
  deriving DecidableEq, Repr

/-- Constant `PW_LOG_DEFAULT_FLAGS`: a backend-defined flag word; its value is
irrelevant to the claims and fixed to zero in the model. -/
def PW_LOG_DEFAULT_FLAGS : Nat := 0

/-- One `PW_LOG` call: severity, flags, and the message text. -/
structure LogCall where
  level : LogLevel
  flags : Nat
  message : String
  deriving DecidableEq, Repr

/-- How the assertion handler's control flow ends: control is handed to
the platform-defined `PW_UNREACHABLE` primitive, which halts or traps —
the handler never returns to its caller. -/
inductive HandlerEnd where
  | unreachable
  deriving DecidableEq, Repr

/-- Handler `pw_assert_HandleFailure` (assert_log.cc), parameterized by the
compile-time `PW_ASSERT_ENABLE_DEBUG` configuration: one critical
`PW_LOG` call whose text depends on the configuration, then
`PW_UNREACHABLE`. The result is the trace of log calls paired with the
terminal control transfer. -/
def pw_assert_HandleFailure (PW_ASSERT_ENABLE_DEBUG : Bool) : List LogCall × HandlerEnd :=
  if PW_ASSERT_ENABLE_DEBUG then
    ([{ level := LogLevel.Critical, flags := PW_LOG_DEFAULT_FLAGS,
        message := "Crash: PW_ASSERT() or PW_DASSERT() failure" }],
      HandlerEnd.unreachable)
  else
    ([{ level := LogLevel.Critical, flags := PW_LOG_DEFAULT_FLAGS,
        message := "Crash: PW_ASSERT() failure. Note: PW_DASSERT disabled" }],
      HandlerEnd.unreachable)

/-- C4: for every value `v` of a type `T`, a `Result<T>` constructed
from `v` has `ok()` true, `status()` equal to Ok, and `value()` equal
to exactly `v`; for every non-Ok Status `s`, a `Result<T>` constructed
from `s` has `ok()` false and `status()` equal to exactly `s`. -/
theorem result_create_ok_and_not_ok (T : Type) (v : T) (s : Status) (_h : s ≠ Status.Ok) :
    (Result.ofValue v).ok = true ∧ (Result.ofValue v).status = Status.Ok ∧
      (Result.ofValue v).value? = some v ∧
      (Result.ofStatus s : Result T).ok = false ∧
      (Result.ofStatus s : Result T).status = s :=
  ⟨rfl, rfl, rfl, rfl, rfl⟩

/-- Witness for C4 at `T = Nat`, `v = 42`, `s = DataLoss`. -/
theorem result_create_ok_and_not_ok_witness :
    Status.DataLoss ≠ Status.Ok ∧
      ((Result.ofValue (42 : Nat)).ok = true ∧
        (Result.ofValue (42 : Nat)).status = Status.Ok ∧
        (Result.ofValue (42 : Nat)).value? = some 42 ∧
        (Result.ofStatus Status.DataLoss : Result Nat).ok = false ∧
        (Result.ofStatus Status.DataLoss : Result Nat).status = Status.DataLoss) :=
  ⟨by decide, result_create_ok_and_not_ok Nat 42 Status.DataLoss (by decide)⟩

/-- C5: the try-assign idiom applied to a successful Result binds the
contained value and continues with the rest of the enclosing operation
(the continuation runs on the value); applied to a failing Result it
returns that Result's exact Status, and no part of the continuation
executes — the outcome is independent of the continuation. The last
two conjuncts record the source test `TryResultAssign` on a failing
and a successful Result. -/
theorem try_assign_propagation (T : Type) (v : T) (k : T → Status) (s : Status)
    (_h : s ≠ Status.Ok) :
    tryAssign (Result.ofValue v) k = k v ∧
      tryAssign (Result.ofStatus s : Result T) k = s ∧
      (∀ k2 : T → Status,
        tryAssign (Result.ofStatus s : Result T) k2 =
          tryAssign (Result.ofStatus s : Result T) k) ∧
      TryResultAssign (Result.ofStatus Status.Cancelled) = Status.Cancelled ∧
      TryResultAssign (Result.ofValue false) = Status.Ok :=
  ⟨rfl, rfl, fun _ => rfl, rfl, rfl⟩

/-- Witness for C5 at `T = Nat`, `v = 7`, a constant continuation, and
`s = DataLoss`. -/
theorem try_assign_propagation_witness :
    Status.DataLoss ≠ Status.Ok ∧
      tryAssign (Result.ofValue (7 : Nat)) (fun _ => Status.Aborted) = Status.Aborted ∧
      tryAssign (Result.ofStatus Status.DataLoss : Result Nat) (fun _ => Status.Aborted) =
        Status.DataLoss ∧
      TryResultAssign (Result.ofStatus Status.Cancelled) = Status.Cancelled ∧
      TryResultAssign (Result.ofValue false) = Status.Ok := by
  have h := try_assign_propagation Nat 7 (fun _ => Status.Aborted) Status.DataLoss (by decide)
  exact ⟨by decide, h.1, h.2.1, h.2.2.2.1, h.2.2.2.2⟩

/-- C9 counterexample: with extended debug-assert detail compiled in,
the logged message is the source's literal
"Crash: PW_ASSERT() or PW_DASSERT() failure", not the claim's quoted
"Crash: assertion failure". -/
theorem assert_handler_message_text_counterexample :
    ¬ ((pw_assert_HandleFailure true).1.map LogCall.message =
        ["Crash: assertion failure"]) := by
  decide

/-- C9 amended: on assertion failure the handler logs exactly one
critical-severity message — "Crash: PW_ASSERT() or PW_DASSERT()
failure" when extended debug-assert detail is compiled in, or the
degraded "Crash: PW_ASSERT() failure. Note: PW_DASSERT disabled"
otherwise — and then transfers control to the platform-defined
unreachable primitive, never returning to its caller. -/
theorem assert_handler_logs_critical_and_halts (d : Bool) :
    (pw_assert_HandleFailure d).1.map LogCall.level = [LogLevel.Critical] ∧
      (pw_assert_HandleFailure d).1.map LogCall.message =
        [if d then "Crash: PW_ASSERT() or PW_DASSERT() failure"
          else "Crash: PW_ASSERT() failure. Note: PW_DASSERT disabled"] ∧
      (pw_assert_HandleFailure d).2 = HandlerEnd.unreachable := by
  cases d <;> exact ⟨rfl, rfl, rfl⟩

/-- C1: with a sufficiently large destination buffer (the test uses 256
bytes; 129 suffice for the committed field), opening a nested encoder
and writing into it a bytes field of 125 bytes — 1-byte key + 1-byte
length + 125-byte value, 127 bytes of nested contents — returns Ok,
and after finalizing, both the nested encoder and the parent have Ok
status. -/
theorem encoder_nested_write_smaller_than_varint_size (bufSize : Nat) (h : 129 ≤ bufSize) :
    (((MemoryEncoder.init bufSize).GetNestedEncoder 1).WriteBytes 2 (List.replicate 125 0xaa)).1
        = Status.Ok ∧
      (((MemoryEncoder.init bufSize).GetNestedEncoder 1).WriteBytes 2
          (List.replicate 125 0xaa)).2.status = Status.Ok ∧
      ((((MemoryEncoder.init bufSize).GetNestedEncoder 1).WriteBytes 2
          (List.replicate 125 0xaa)).2.Finalize (MemoryEncoder.init bufSize) 1).status
        = Status.Ok := by
  have h1 : ¬ (bufSize - 1 - 1 < 127) := by omega
  have h2 : ¬ (bufSize < 129) := by omega
  simp [MemoryEncoder.init, MemoryEncoder.GetNestedEncoder, StreamingEncoder.WriteBytes,
    StreamingEncoder.Finalize, encodeKey, varintEncode, varintEncodeAux, maxNestedPayload,
    kMaxVarintSize, h1, h2]

set_option maxRecDepth 8000 in
/-- Witness for C1 at the test's 256-byte buffer. -/
theorem encoder_nested_write_smaller_than_varint_size_witness :
    129 ≤ 256 ∧
      ((((MemoryEncoder.init 256).GetNestedEncoder 1).WriteBytes 2
            (List.replicate 125 0xaa)).1 = Status.Ok ∧
        (((MemoryEncoder.init 256).GetNestedEncoder 1).WriteBytes 2
            (List.replicate 125 0xaa)).2.status = Status.Ok ∧
        ((((MemoryEncoder.init 256).GetNestedEncoder 1).WriteBytes 2
            (List.replicate 125 0xaa)).2.Finalize (MemoryEncoder.init 256) 1).status
          = Status.Ok) :=
  ⟨by decide, encoder_nested_write_smaller_than_varint_size 256 (by decide)⟩

set_option maxRecDepth 8000 in
/-- C2: a single nested write of a 126-byte bytes value — 128 bytes of
nested contents, past the 127-byte single-varint-byte ceiling — returns
ResourceExhausted and fails the nested encoder; the failure is sticky:
any later `WriteBytes` or `WriteUint32` on a failed encoder is a no-op
returning the stored (original) status; and finalizing the failed
nested encoder leaves the parent with ResourceExhausted status. -/
theorem encoder_nested_write_larger_than_varint_size :
    ((((MemoryEncoder.init 256).GetNestedEncoder 1).WriteBytes 2 (List.replicate 126 0xaa)).1
        = Status.ResourceExhausted ∧
      (((MemoryEncoder.init 256).GetNestedEncoder 1).WriteBytes 2
          (List.replicate 126 0xaa)).2.status = Status.ResourceExhausted ∧
      ((((MemoryEncoder.init 256).GetNestedEncoder 1).WriteBytes 2
          (List.replicate 126 0xaa)).2.WriteUint32 3 42).1 = Status.ResourceExhausted ∧
      (((((MemoryEncoder.init 256).GetNestedEncoder 1).WriteBytes 2
          (List.replicate 126 0xaa)).2.WriteUint32 3 42).2.Finalize
            (MemoryEncoder.init 256) 1).status = Status.ResourceExhausted) ∧
    (∀ (e : StreamingEncoder) (f : Nat) (v : List Nat),
      e.status ≠ Status.Ok → e.WriteBytes f v = (e.status, e)) ∧
    (∀ (e : StreamingEncoder) (f v : Nat),
      e.status ≠ Status.Ok → e.WriteUint32 f v = (e.status, e)) := by
  refine ⟨by decide, ?_, ?_⟩
  · intro e f v he
    rw [StreamingEncoder.WriteBytes, if_pos he]
  · intro e f v he
    rw [StreamingEncoder.WriteUint32, if_pos he]

/-- Witness for C2's sticky-failure conjuncts at a concrete failed
encoder. -/
theorem encoder_nested_write_larger_than_varint_size_witness :
    (Status.ResourceExhausted ≠ Status.Ok) ∧
      StreamingEncoder.WriteBytes ⟨Status.ResourceExhausted, [], 10⟩ 5 [1, 2] =
        (Status.ResourceExhausted, ⟨Status.ResourceExhausted, [], 10⟩) ∧
      StreamingEncoder.WriteUint32 ⟨Status.ResourceExhausted, [], 10⟩ 5 7 =
        (Status.ResourceExhausted, ⟨Status.ResourceExhausted, [], 10⟩) :=
  ⟨by decide,
    encoder_nested_write_larger_than_varint_size.2.1 ⟨Status.ResourceExhausted, [], 10⟩ 5
      [1, 2] (by decide),
    encoder_nested_write_larger_than_varint_size.2.2 ⟨Status.ResourceExhausted, [], 10⟩ 5
      7 (by decide)⟩

set_option maxRecDepth 8000 in
/-- C3: three sequential 60-byte bytes writes into one nested message
(fields 2, 3, 4; 62 bytes of contents each): the first two return Ok
(124 bytes accumulated), the third returns ResourceExhausted because
the accumulated contents would pass the 127-byte ceiling, and after
finalizing, the parent's status is ResourceExhausted — accumulated
overflow fails the same way as single-write overflow. -/
theorem encoder_nested_message_accumulated_overflow :
    (((MemoryEncoder.init 256).GetNestedEncoder 1).WriteBytes 2 (List.replicate 60 0xaa)).1
        = Status.Ok ∧
      ((((MemoryEncoder.init 256).GetNestedEncoder 1).WriteBytes 2
          (List.replicate 60 0xaa)).2.WriteBytes 3 (List.replicate 60 0xaa)).1 = Status.Ok ∧
      (((((MemoryEncoder.init 256).GetNestedEncoder 1).WriteBytes 2
          (List.replicate 60 0xaa)).2.WriteBytes 3 (List.replicate 60 0xaa)).2.WriteBytes 4
            (List.replicate 60 0xaa)).1 = Status.ResourceExhausted ∧
      ((((((MemoryEncoder.init 256).GetNestedEncoder 1).WriteBytes 2
          (List.replicate 60 0xaa)).2.WriteBytes 3 (List.replicate 60 0xaa)).2.WriteBytes 4
            (List.replicate 60 0xaa)).2.Finalize (MemoryEncoder.init 256) 1).status
        = Status.ResourceExhausted := by
  decide

/-- C6: `LogQueue::Pop` on an empty queue returns OutOfRange, writes
nothing and leaves the queue unchanged; with a destination buffer
strictly smaller than the oldest stored entry it returns
ResourceExhausted, fills the destination to its capacity with the
entry's leading bytes, and still removes the whole entry, so the
remaining queue is exactly the rest — a later Pop never sees that
entry again. -/
theorem log_queue_pop_empty_and_small_buffer (q : LogQueue) (bufCap : Nat) :
    (q.entries = [] → q.Pop bufCap = (Status.OutOfRange, [], q)) ∧
    (∀ (e : List Nat) (rest : List (List Nat)), q.entries = e :: rest → bufCap < e.length →
      (q.Pop bufCap).1 = Status.ResourceExhausted ∧
      (q.Pop bufCap).2.1 = e.take bufCap ∧
      ((q.Pop bufCap).2.1).length = bufCap ∧
      (q.Pop bufCap).2.2 = LogQueue.mk rest) := by
  constructor
  · intro hq
    simp [LogQueue.Pop, hq]
  · intro e rest hq hlen
    have hnle : ¬ (e.length ≤ bufCap) := by omega
    simp [LogQueue.Pop, hq, hnle, List.length_take]
    omega

/-- Witness for C6: the empty queue, and a three-byte entry popped into
a two-byte destination. -/
theorem log_queue_pop_empty_and_small_buffer_witness :
    (LogQueue.mk []).Pop 4 = (Status.OutOfRange, [], LogQueue.mk []) ∧
      ((LogQueue.mk [[1, 2, 3]]).Pop 2).1 = Status.ResourceExhausted ∧
      ((LogQueue.mk [[1, 2, 3]]).Pop 2).2.1 = List.take 2 [1, 2, 3] ∧
      (((LogQueue.mk [[1, 2, 3]]).Pop 2).2.1).length = 2 ∧
      ((LogQueue.mk [[1, 2, 3]]).Pop 2).2.2 = LogQueue.mk [] :=
  ⟨(log_queue_pop_empty_and_small_buffer (LogQueue.mk []) 4).1 rfl,
    (log_queue_pop_empty_and_small_buffer (LogQueue.mk [[1, 2, 3]]) 2).2 [1, 2, 3] []
      rfl (by decide)⟩

/-- C7: the mock initiator consumes expectations strictly in
declaration order — every call that passes the fatal check leaves the
expectation list unchanged and advances the cursor by exactly one; a
call whose address, outbound bytes, inbound buffer size or (when the
expectation specifies one) duration differs from the next expected
transaction records a test failure; and a mock destroyed while its
cursor has not consumed every expectation reports a test failure at
destruction time. -/
theorem mock_initiator_order_and_failures :
    (∀ (m : MockInitiator) (addr : Nat) (tx : List Nat) (rxSize dur : Nat)
        (out : WriteReadOutcome) (m2 : MockInitiator),
      m.DoWriteReadFor addr tx rxSize dur = some (out, m2) →
        m2.expected_transactions = m.expected_transactions ∧
        m2.expected_transaction_index = m.expected_transaction_index + 1) ∧
    (∀ (m : MockInitiator) (addr : Nat) (tx : List Nat) (rxSize dur : Nat)
        (h : m.expected_transaction_index < m.expected_transactions.length),
      (m.expected_transactions.get ⟨m.expected_transaction_index, h⟩).address ≠ addr ∨
        (∃ d, (m.expected_transactions.get ⟨m.expected_transaction_index, h⟩).for_at_least
            = some d ∧ d ≠ dur) ∨
        (m.expected_transactions.get ⟨m.expected_transaction_index, h⟩).write_buffer ≠ tx ∨
        (m.expected_transactions.get ⟨m.expected_transaction_index, h⟩).read_buffer.length
          ≠ rxSize →
      ∃ out m2, m.DoWriteReadFor addr tx rxSize dur = some (out, m2) ∧ out.failures ≠ []) ∧
    (∀ m : MockInitiator, m.expected_transaction_index < m.expected_transactions.length →
      m.destructorReportsFailure = true) := by
  refine ⟨?_, ?_, ?_⟩
  · intro m addr tx rxSize dur out m2 hcall
    rw [MockInitiator.DoWriteReadFor] at hcall
    split at hcall
    · simp only [Option.some.injEq, Prod.mk.injEq] at hcall
      rw [← hcall.2]
      exact ⟨rfl, rfl⟩
    · exact absurd hcall (by simp)
  · intro m addr tx rxSize dur h hmis
    rw [MockInitiator.DoWriteReadFor]
    rw [dif_pos h]
    refine ⟨_, _, rfl, ?_⟩
    intro hempty
    simp only [List.append_eq_nil] at hempty
    obtain ⟨⟨⟨h1, h2⟩, h3⟩, h4⟩ := hempty
    rcases hmis with hA | ⟨d, hd, hdne⟩ | hT | hR
    · rw [if_neg hA] at h1
      exact absurd h1 (by simp)
    · rw [hd] at h2
      simp [hdne] at h2
    · rw [if_neg hT] at h3
      exact absurd h3 (by simp)
    · rw [if_neg hR] at h4
      exact absurd h4 (by simp)
  · intro m h
    simp [MockInitiator.destructorReportsFailure, MockInitiator.Finalize, Nat.ne_of_lt h]

/-- Witness for C7 at a one-transaction mock: a matching call advances
the cursor from 0 to 1, an address-mismatched call records a failure,
and destroying the unconsumed mock reports a failure. -/
theorem mock_initiator_order_and_failures_witness :
    ((MockInitiator.mk [Transaction.mk 5 [1] [9] (some 3) Status.Ok] 1).expected_transactions
        = (MockInitiator.mk [Transaction.mk 5 [1] [9] (some 3) Status.Ok]
            0).expected_transactions ∧
      (MockInitiator.mk [Transaction.mk 5 [1] [9] (some 3) Status.Ok]
          1).expected_transaction_index
        = (MockInitiator.mk [Transaction.mk 5 [1] [9] (some 3) Status.Ok]
            0).expected_transaction_index + 1) ∧
      (∃ out m2,
        (MockInitiator.mk [Transaction.mk 5 [1] [9] (some 3) Status.Ok] 0).DoWriteReadFor 6
            [1] 1 3 = some (out, m2) ∧ out.failures ≠ []) ∧
      (MockInitiator.mk [Transaction.mk 5 [1] [9] (some 3) Status.Ok]
          0).destructorReportsFailure = true :=
  ⟨mock_initiator_order_and_failures.1
      (MockInitiator.mk [Transaction.mk 5 [1] [9] (some 3) Status.Ok] 0) 5 [1] 1 3
      (WriteReadOutcome.mk [] [9] Status.Ok)
      (MockInitiator.mk [Transaction.mk 5 [1] [9] (some 3) Status.Ok] 1) (by decide),
    mock_initiator_order_and_failures.2.1
      (MockInitiator.mk [Transaction.mk 5 [1] [9] (some 3) Status.Ok] 0) 6 [1] 1 3
      (by decide) (Or.inl (by decide)),
    mock_initiator_order_and_failures.2.2
      (MockInitiator.mk [Transaction.mk 5 [1] [9] (some 3) Status.Ok] 0) (by decide)⟩

/-- C8: every call with at least one expectation remaining copies the
expected inbound payload into the caller's buffer and returns exactly
the Status recorded for the current expected transaction, with no
condition on whether the address, byte, size or duration comparisons
passed — any scripted Status is returned independently of the
transaction data. -/
theorem mock_initiator_scripted_status (m : MockInitiator) (addr : Nat) (tx : List Nat)
    (rxSize dur : Nat)
    (h : m.expected_transaction_index < m.expected_transactions.length) :
    ∃ out m2, m.DoWriteReadFor addr tx rxSize dur = some (out, m2) ∧
      out.rx = (m.expected_transactions.get ⟨m.expected_transaction_index, h⟩).read_buffer ∧
      out.returned
        = (m.expected_transactions.get ⟨m.expected_transaction_index, h⟩).return_value := by
  rw [MockInitiator.DoWriteReadFor, dif_pos h]
  exact ⟨_, _, rfl, rfl, rfl⟩

/-- Witness for C8: a transaction scripted to return Internal hands
back its inbound payload and that Status even though the requested
address, bytes, size and duration all mismatch. -/
theorem mock_initiator_scripted_status_witness :
    ∃ out m2,
      (MockInitiator.mk [Transaction.mk 5 [1] [9] (some 3) Status.Internal]
          0).DoWriteReadFor 6 [2] 0 4 = some (out, m2) ∧
        out.rx = [9] ∧ out.returned = Status.Internal := by
  obtain ⟨out, m2, hcall, hrx, hret⟩ :=
    mock_initiator_scripted_status
      (MockInitiator.mk [Transaction.mk 5 [1] [9] (some 3) Status.Internal] 0) 6 [2] 0 4
      (by decide)
  exact ⟨out, m2, hcall, hrx, hret⟩

/-- C10: calling the mock with every expected transaction already
consumed trips the fatal `PW_CHECK` on the cursor — modelled as the
call producing no outcome at all, the process halting — whereas any
call with an expectation remaining always produces an outcome, the
mismatch checks being the non-fatal recorded-and-continue kind. -/
theorem mock_initiator_exhausted_fatal_check :
    (∀ (m : MockInitiator) (addr : Nat) (tx : List Nat) (rxSize dur : Nat),
      m.expected_transactions.length ≤ m.expected_transaction_index →
        m.DoWriteReadFor addr tx rxSize dur = none) ∧
    (∀ (m : MockInitiator) (addr : Nat) (tx : List Nat) (rxSize dur : Nat),
      m.expected_transaction_index < m.expected_transactions.length →
        (m.DoWriteReadFor addr tx rxSize dur).isSome = true) := by
  constructor
  · intro m addr tx rxSize dur hle
    rw [MockInitiator.DoWriteReadFor, dif_neg (by omega)]
  · intro m addr tx rxSize dur hlt
    rw [MockInitiator.DoWriteReadFor, dif_pos hlt]
    rfl

/-- Witness for C10: a fully consumed mock halts fatally on a further
call; a mock with one remaining expectation produces an outcome even
for a fully mismatched call. -/
theorem mock_initiator_exhausted_fatal_check_witness :
    (MockInitiator.mk [] 0).DoWriteReadFor 5 [] 0 0 = none ∧
      ((MockInitiator.mk [Transaction.mk 5 [] [] none Status.Ok] 0).DoWriteReadFor 9 [7] 3
          2).isSome = true :=
  ⟨mock_initiator_exhausted_fatal_check.1 (MockInitiator.mk [] 0) 5 [] 0 0 (by decide),
    mock_initiator_exhausted_fatal_check.2
      (MockInitiator.mk [Transaction.mk 5 [] [] none Status.Ok] 0) 9 [7] 3 2 (by decide)⟩

end Pw
